import Mathlib

/-!
A shallow embedding of the OpenWrt interface-status checker
(src/checker/status.rs): the configuration and status data model, the
serde-style (de)serialization semantics over a JSON value type, the uptime
formatter, the error taxonomy, and the ssh-based fetch orchestration.
JSON numbers are modelled as integers; all numeric fields of the wire
schema are integer-typed (u64, i32, u8).
-/

/-- JSON values, as produced by the text-level parser and consumed by the
serde-style deserializers. Numbers are modelled as integers. Objects keep
their fields as an ordered association list. -/
inductive Json where
  | null : Json
  | bool : Bool → Json
  | num : Int → Json
  | str : String → Json
  | arr : List Json → Json
  | obj : List (String × Json) → Json

/-- Connection parameters: `OpenWrtConfig` in the source. The Rust types
are String / u16 / String / String / Option of String; the u16 port is
modelled as a Nat (its value is never range-checked by the program). -/
structure OpenWrtConfig where
  host : String
  port : Nat
  username : String
  interface : String
  private_key_path : Option String
deriving Repr, DecidableEq

/-- The `Default` impl for `OpenWrtConfig`. -/
def OpenWrtConfig.default : OpenWrtConfig :=
  { host := "192.168.1.1"
    port := 22
    username := "root"
    interface := "wan"
    private_key_path := some "~/.ssh/local" }

/-- Struct `Ipv4Address` from the source; `mask` is a Rust u8, modelled as a Nat
whose range (at most 255) is enforced by the deserializer. -/
structure Ipv4Address where
  address : String
  mask : Nat
deriving Repr, DecidableEq

/-- Struct `Route` from the source; `mask` is a Rust u8. -/
structure Route where
  target : String
  mask : Nat
  nexthop : String
  source : Option String
deriving Repr, DecidableEq

/-- Struct `InterfaceStatus` from the source. Field names are the Rust field
names; the serde rename attributes (hyphenated wire names) live in the
deserializer and serializer below. `uptime` is a u64, `metric` and
`dns_metric` are i32, modelled as Nat / Int with deserializer-enforced
ranges. `inactive` and `data` are loosely typed passthrough values. -/
structure InterfaceStatus where
  up : Bool
  pending : Bool
  available : Bool
  autostart : Bool
  dynamic : Bool
  uptime : Nat
  l3_device : Option String
  proto : Option String
  updated : List String
  metric : Int
  dns_metric : Int
  delegation : Bool
  ipv4_address : List Ipv4Address
  ipv6_address : List String
  ipv6_prefix : List String
  ipv6_prefix_assignment : List String
  route : List Route
  dns_server : List String
  dns_search : List String
  neighbors : List String
  inactive : Option Json
  data : Json

/-- Method `InterfaceStatus::format_uptime` from the source, written with the
same unit arithmetic and branch structure. -/
def InterfaceStatus.format_uptime (s : InterfaceStatus) : String :=
  let secs := s.uptime
  let days := secs / 86400
  let hours := secs % 86400 / 3600
  let minutes := secs % 3600 / 60
  let seconds := secs % 60
  if days > 0 then
    toString days ++ "d " ++ toString hours ++ "h " ++ toString minutes ++ "m "
      ++ toString seconds ++ "s"
  else if hours > 0 then
    toString hours ++ "h " ++ toString minutes ++ "m " ++ toString seconds ++ "s"
  else if minutes > 0 then
    toString minutes ++ "m " ++ toString seconds ++ "s"
  else
    toString seconds ++ "s"

/-- The remote command string built by `fetch_interface_status`:
`format!("ubus call network.interface.{} status", config.interface)`. -/
def build_command (config : OpenWrtConfig) : String :=
  "ubus call network.interface." ++ config.interface ++ " status"

/-- The ssh argument list built by `fetch_interface_status` (the `args`
vector of the source, lines 137-158): host-key-check disabling options,
then `-i <key>` when a private key path is configured, then the
`user@host` destination, then the remote command string. -/
def build_args (config : OpenWrtConfig) : List String :=
  let args : List String :=
    ["-o", "StrictHostKeyChecking=no", "-o", "UserKnownHostsFile=/dev/null"]
  let args :=
    match config.private_key_path with
    | some private_key => args ++ ["-i", private_key]
    | none => args
  let args := args ++ [config.username ++ "@" ++ config.host]
  args ++ [build_command config]

/-- First binding of a key in the field list of a JSON object (serde processes
each known field once; with no duplicate keys this is the value of the field). -/
def lookupKey : List (String × Json) → String → Option Json
  | [], _ => none
  | (k, v) :: rest, name => if k == name then some v else lookupKey rest name

/-- Number of bindings of a key in the field list of a JSON object. -/
def countKey (fs : List (String × Json)) (name : String) : Nat :=
  (fs.filter (fun kv => kv.fst == name)).length

/-- The serde duplicate-field rejection: deserialization of a struct fails
when any known field name is bound more than once in the input object. -/
def noDupField (fs : List (String × Json)) (names : List String) : Bool :=
  names.all (fun n => decide (countKey fs n ≤ 1))

/-- Deserialize a Rust bool field. -/
def deBool : Json → Except String Bool
  | Json.bool b => Except.ok b
  | _ => Except.error "invalid type: expected a boolean"

/-- Deserialize a Rust u64 field. -/
def deU64 : Json → Except String Nat
  | Json.num n =>
    if 0 ≤ n ∧ n < 18446744073709551616 then Except.ok n.toNat
    else Except.error "invalid value: out of range for u64"
  | _ => Except.error "invalid type: expected u64"

/-- Deserialize a Rust i32 field. -/
def deI32 : Json → Except String Int
  | Json.num n =>
    if -2147483648 ≤ n ∧ n < 2147483648 then Except.ok n
    else Except.error "invalid value: out of range for i32"
  | _ => Except.error "invalid type: expected i32"

/-- Deserialize a Rust u8 field (the type of the `mask` fields). -/
def deU8 : Json → Except String Nat
  | Json.num n =>
    if 0 ≤ n ∧ n ≤ 255 then Except.ok n.toNat
    else Except.error "invalid value: out of range for u8"
  | _ => Except.error "invalid type: expected u8"

/-- Deserialize a Rust String field. -/
def deString : Json → Except String String
  | Json.str s => Except.ok s
  | _ => Except.error "invalid type: expected a string"

/-- Deserialize a `serde_json::Value` field: any JSON value, verbatim. -/
def deJson : Json → Except String Json :=
  fun v => Except.ok v

/-- Deserialize the elements of a JSON array one by one. -/
def deListAux {α : Type} (de : Json → Except String α) :
    List Json → Except String (List α)
  | [] => Except.ok []
  | v :: rest => do
    let a ← de v
    let as ← deListAux de rest
    Except.ok (a :: as)

/-- Deserialize a Rust `Vec` field from a JSON array. -/
def deList {α : Type} (de : Json → Except String α) : Json → Except String (List α)
  | Json.arr vs => deListAux de vs
  | _ => Except.error "invalid type: expected an array"

/-- Read a mandatory struct field: serde fails with a missing-field error
when the key is absent, otherwise deserializes the bound value. -/
def reqField {α : Type} (fs : List (String × Json)) (name : String)
    (de : Json → Except String α) : Except String α :=
  match lookupKey fs name with
  | none => Except.error ("missing field " ++ name)
  | some v => de v

/-- Read an `Option` struct field: serde maps an absent key and a `null`
value to `None`, and otherwise deserializes the bound value. -/
def optField {α : Type} (fs : List (String × Json)) (name : String)
    (de : Json → Except String α) : Except String (Option α) :=
  match lookupKey fs name with
  | none => Except.ok none
  | some Json.null => Except.ok none
  | some v => do
    let a ← de v
    Except.ok (some a)

/-- The known field names of `Ipv4Address`. -/
def ipv4FieldNames : List String := ["address", "mask"]

/-- Derived `Deserialize` for `Ipv4Address`: a JSON object with mandatory
`address` (string) and `mask` (u8); unknown keys are ignored. -/
def deIpv4 : Json → Except String Ipv4Address
  | Json.obj fs =>
    if noDupField fs ipv4FieldNames then do
      let address ← reqField fs "address" deString
      let mask ← reqField fs "mask" deU8
      Except.ok { address := address, mask := mask }
    else Except.error "duplicate field in Ipv4Address"
  | _ => Except.error "invalid type: expected struct Ipv4Address"

/-- The known field names of `Route`. -/
def routeFieldNames : List String := ["target", "mask", "nexthop", "source"]

/-- Derived `Deserialize` for `Route`: mandatory `target`, `mask`,
`nexthop`; optional `source`; unknown keys are ignored. -/
def deRoute : Json → Except String Route
  | Json.obj fs =>
    if noDupField fs routeFieldNames then do
      let target ← reqField fs "target" deString
      let mask ← reqField fs "mask" deU8
      let nexthop ← reqField fs "nexthop" deString
      let source ← optField fs "source" deString
      Except.ok { target := target, mask := mask, nexthop := nexthop, source := source }
    else Except.error "duplicate field in Route"
  | _ => Except.error "invalid type: expected struct Route"

/-- All known wire field names of `InterfaceStatus`, with the serde
renames applied (hyphenated names for the renamed fields). -/
def interfaceStatusFieldNames : List String :=
  ["up", "pending", "available", "autostart", "dynamic", "uptime", "l3_device",
   "proto", "updated", "metric", "dns_metric", "delegation", "ipv4-address",
   "ipv6-address", "ipv6-prefix", "ipv6-prefix-assignment", "route",
   "dns-server", "dns-search", "neighbors", "inactive", "data"]

/-- The wire names of the mandatory (non-`Option`) fields of
`InterfaceStatus`: everything except `l3_device`, `proto` and `inactive`.
The `Vec` fields carry no serde default attribute in the source, so they
are mandatory like the scalar fields. -/
def mandatoryFieldNames : List String :=
  ["up", "pending", "available", "autostart", "dynamic", "uptime", "updated",
   "metric", "dns_metric", "delegation", "ipv4-address", "ipv6-address",
   "ipv6-prefix", "ipv6-prefix-assignment", "route", "dns-server",
   "dns-search", "neighbors", "data"]

/-- The wire names of the `Option`-typed fields of `InterfaceStatus`. -/
def optionalFieldNames : List String := ["l3_device", "proto", "inactive"]

/-- Derived `Deserialize` for `InterfaceStatus`: every non-`Option` field
is mandatory (no serde default attributes in the source); `Option` fields
default to `none` when absent; the renamed fields are read under their
hyphenated wire names; unknown keys are ignored. -/
def deInterfaceStatus : Json → Except String InterfaceStatus
  | Json.obj fs =>
    if noDupField fs interfaceStatusFieldNames then do
      let up ← reqField fs "up" deBool
      let pending ← reqField fs "pending" deBool
      let available ← reqField fs "available" deBool
      let autostart ← reqField fs "autostart" deBool
      let dynamic ← reqField fs "dynamic" deBool
      let uptime ← reqField fs "uptime" deU64
      let l3_device ← optField fs "l3_device" deString
      let proto ← optField fs "proto" deString
      let updated ← reqField fs "updated" (deList deString)
      let metric ← reqField fs "metric" deI32
      let dns_metric ← reqField fs "dns_metric" deI32
      let delegation ← reqField fs "delegation" deBool
      let ipv4_address ← reqField fs "ipv4-address" (deList deIpv4)
      let ipv6_address ← reqField fs "ipv6-address" (deList deString)
      let ipv6_prefix ← reqField fs "ipv6-prefix" (deList deString)
      let ipv6_prefix_assignment ← reqField fs "ipv6-prefix-assignment" (deList deString)
      let route ← reqField fs "route" (deList deRoute)
      let dns_server ← reqField fs "dns-server" (deList deString)
      let dns_search ← reqField fs "dns-search" (deList deString)
      let neighbors ← reqField fs "neighbors" (deList deString)
      let inactive ← optField fs "inactive" deJson
      let data ← reqField fs "data" deJson
      Except.ok
        { up := up
          pending := pending
          available := available
          autostart := autostart
          dynamic := dynamic
          uptime := uptime
          l3_device := l3_device
          proto := proto
          updated := updated
          metric := metric
          dns_metric := dns_metric
          delegation := delegation
          ipv4_address := ipv4_address
          ipv6_address := ipv6_address
          ipv6_prefix := ipv6_prefix
          ipv6_prefix_assignment := ipv6_prefix_assignment
          route := route
          dns_server := dns_server
          dns_search := dns_search
          neighbors := neighbors
          inactive := inactive
          data := data }
    else Except.error "duplicate field in InterfaceStatus"
  | _ => Except.error "invalid type: expected struct InterfaceStatus"

/-- Serialize an `Option` String field: serde emits `null` for `None`. -/
def serOptString : Option String → Json
  | none => Json.null
  | some s => Json.str s

/-- Serialize an `Option` `serde_json::Value` field. -/
def serOptJson : Option Json → Json
  | none => Json.null
  | some v => v

/-- Serialize a `Vec` of Strings. -/
def serStringList (xs : List String) : Json :=
  Json.arr (xs.map Json.str)

/-- Derived `Serialize` for `Ipv4Address`. -/
def serIpv4 (a : Ipv4Address) : Json :=
  Json.obj [("address", Json.str a.address), ("mask", Json.num (Int.ofNat a.mask))]

/-- Derived `Serialize` for `Route`. -/
def serRoute (r : Route) : Json :=
  Json.obj [("target", Json.str r.target), ("mask", Json.num (Int.ofNat r.mask)),
    ("nexthop", Json.str r.nexthop), ("source", serOptString r.source)]

/-- Derived `Serialize` for `InterfaceStatus`: every field is emitted, in
declaration order, under its wire name (hyphenated for the renamed
fields); `Option` fields serialize as `null` when `none`. -/
def serInterfaceStatus (s : InterfaceStatus) : Json :=
  match s with
  | InterfaceStatus.mk up pending available autostart dynamic uptime l3_device
      proto updated metric dns_metric delegation ipv4_address ipv6_address
      ipv6_prefix ipv6_prefix_assignment route dns_server dns_search
      neighbors inactive data =>
    Json.obj
      [("up", Json.bool up),
       ("pending", Json.bool pending),
       ("available", Json.bool available),
       ("autostart", Json.bool autostart),
       ("dynamic", Json.bool dynamic),
       ("uptime", Json.num (Int.ofNat uptime)),
       ("l3_device", serOptString l3_device),
       ("proto", serOptString proto),
       ("updated", serStringList updated),
       ("metric", Json.num metric),
       ("dns_metric", Json.num dns_metric),
       ("delegation", Json.bool delegation),
       ("ipv4-address", Json.arr (ipv4_address.map serIpv4)),
       ("ipv6-address", serStringList ipv6_address),
       ("ipv6-prefix", serStringList ipv6_prefix),
       ("ipv6-prefix-assignment", serStringList ipv6_prefix_assignment),
       ("route", Json.arr (route.map serRoute)),
       ("dns-server", serStringList dns_server),
       ("dns-search", serStringList dns_search),
       ("neighbors", serStringList neighbors),
       ("inactive", serOptJson inactive),
       ("data", data)]

/-- Continuation-byte test for UTF-8 (0x80 to 0xBF). -/
def isCont (b : Nat) : Bool :=
  decide (128 ≤ b) && decide (b < 192)

/-- One step of UTF-8 decoding: end of input, one decoded scalar value
with the number of bytes it consumed, or an invalid sequence with the
length of its maximal valid prefix (at least one byte), following the
byte ranges accepted by the Rust standard library. -/
inductive Utf8Step where
  | done : Utf8Step
  | char : Char → Nat → Utf8Step
  | bad : Nat → Utf8Step

/-- Decode one UTF-8 scalar value from the front of a byte list. -/
def utf8Step : List Nat → Utf8Step
  | [] => Utf8Step.done
  | b :: rest =>
    if b < 128 then Utf8Step.char (Char.ofNat b) 1
    else if b < 194 then Utf8Step.bad 1
    else if b < 224 then
      match rest with
      | b1 :: _ =>
        if isCont b1 then Utf8Step.char (Char.ofNat ((b - 192) * 64 + (b1 - 128))) 2
        else Utf8Step.bad 1
      | [] => Utf8Step.bad 1
    else if b < 240 then
      match rest with
      | b1 :: rest1 =>
        let lo := if b == 224 then 160 else 128
        let hi := if b == 237 then 160 else 192
        if lo ≤ b1 ∧ b1 < hi then
          match rest1 with
          | b2 :: _ =>
            if isCont b2 then
              Utf8Step.char (Char.ofNat ((b - 224) * 4096 + (b1 - 128) * 64 + (b2 - 128))) 3
            else Utf8Step.bad 2
          | [] => Utf8Step.bad 2
        else Utf8Step.bad 1
      | [] => Utf8Step.bad 1
    else if b < 245 then
      match rest with
      | b1 :: rest1 =>
        let lo := if b == 240 then 144 else 128
        let hi := if b == 244 then 144 else 192
        if lo ≤ b1 ∧ b1 < hi then
          match rest1 with
          | b2 :: rest2 =>
            if isCont b2 then
              match rest2 with
              | b3 :: _ =>
                if isCont b3 then
                  Utf8Step.char
                    (Char.ofNat ((b - 240) * 262144 + (b1 - 128) * 4096
                      + (b2 - 128) * 64 + (b3 - 128))) 4
                else Utf8Step.bad 3
              | [] => Utf8Step.bad 3
            else Utf8Step.bad 2
          | [] => Utf8Step.bad 2
        else Utf8Step.bad 1
      | [] => Utf8Step.bad 1
    else Utf8Step.bad 1

/-- Fuelled strict UTF-8 decoding loop; every step consumes at least one
byte, so fuel equal to the byte count suffices. -/
def utf8DecodeLoop : Nat → List Nat → Option (List Char)
  | _, [] => some []
  | 0, _ :: _ => none
  | fuel + 1, bs =>
    match utf8Step bs with
    | Utf8Step.done => some []
    | Utf8Step.char c n => (utf8DecodeLoop fuel (bs.drop n)).map (fun cs => c :: cs)
    | Utf8Step.bad _ => none

/-- Strict UTF-8 decoding: `String::from_utf8` (used on stdout). -/
def utf8Decode (bs : List Nat) : Option String :=
  (utf8DecodeLoop (bs.length + 1) bs).map (fun cs => String.mk cs)

/-- Fuelled lossy UTF-8 decoding loop: invalid sequences become U+FFFD. -/
def utf8LossyLoop : Nat → List Nat → List Char
  | _, [] => []
  | 0, _ :: _ => []
  | fuel + 1, bs =>
    match utf8Step bs with
    | Utf8Step.done => []
    | Utf8Step.char c n => c :: utf8LossyLoop fuel (bs.drop n)
    | Utf8Step.bad n => Char.ofNat 65533 :: utf8LossyLoop fuel (bs.drop n)

/-- Lossy UTF-8 decoding: `String::from_utf8_lossy` (used on stderr). -/
def utf8DecodeLossy (bs : List Nat) : String :=
  String.mk (utf8LossyLoop (bs.length + 1) bs)

/-- UTF-8 bytes of an ASCII string (all the concrete process outputs used
below are ASCII, where code points and bytes coincide). -/
def asciiBytes (s : String) : List Nat :=
  s.data.map Char.toNat

/-- JSON insignificant whitespace. -/
def isJsonWs (c : Char) : Bool :=
  c == ' ' || c == '\n' || c == '\r' || c == '\t'

/-- Drop leading JSON whitespace. -/
def skipWs : List Char → List Char
  | [] => []
  | c :: rest => if isJsonWs c then skipWs rest else c :: rest

/-- Value of one hexadecimal digit. -/
def hexVal (c : Char) : Option Nat :=
  if '0' ≤ c ∧ c ≤ '9' then some (c.toNat - 48)
  else if 'a' ≤ c ∧ c ≤ 'f' then some (c.toNat - 87)
  else if 'A' ≤ c ∧ c ≤ 'F' then some (c.toNat - 55)
  else none

/-- Parse the body of a JSON string literal (the opening quote already
consumed), handling the standard escapes, surrogate pairs in unicode
escapes, and rejecting raw control characters, as serde_json does.
Returns the decoded characters and the remaining input. -/
def parseStringBody : Nat → List Char → Option (List Char × List Char)
  | 0, _ => none
  | _ + 1, [] => none
  | fuel + 1, c :: rest =>
    if c == '"' then some ([], rest)
    else if c == '\\' then
      match rest with
      | [] => none
      | e :: rest1 =>
        if e == '"' then (parseStringBody fuel rest1).map (fun p => ('"' :: p.fst, p.snd))
        else if e == '\\' then (parseStringBody fuel rest1).map (fun p => ('\\' :: p.fst, p.snd))
        else if e == '/' then (parseStringBody fuel rest1).map (fun p => ('/' :: p.fst, p.snd))
        else if e == 'b' then (parseStringBody fuel rest1).map (fun p => (Char.ofNat 8 :: p.fst, p.snd))
        else if e == 'f' then (parseStringBody fuel rest1).map (fun p => (Char.ofNat 12 :: p.fst, p.snd))
        else if e == 'n' then (parseStringBody fuel rest1).map (fun p => ('\n' :: p.fst, p.snd))
        else if e == 'r' then (parseStringBody fuel rest1).map (fun p => ('\r' :: p.fst, p.snd))
        else if e == 't' then (parseStringBody fuel rest1).map (fun p => ('\t' :: p.fst, p.snd))
        else if e == 'u' then
          match rest1 with
          | h1 :: h2 :: h3 :: h4 :: rest2 =>
            match hexVal h1, hexVal h2, hexVal h3, hexVal h4 with
            | some a, some b, some c2, some d =>
              let n := a * 4096 + b * 256 + c2 * 16 + d
              if n < 55296 ∨ 57344 ≤ n then
                (parseStringBody fuel rest2).map (fun p => (Char.ofNat n :: p.fst, p.snd))
              else if n < 56320 then
                match rest2 with
                | '\\' :: 'u' :: g1 :: g2 :: g3 :: g4 :: rest3 =>
                  match hexVal g1, hexVal g2, hexVal g3, hexVal g4 with
                  | some a2, some b2, some c3, some d2 =>
                    let m := a2 * 4096 + b2 * 256 + c3 * 16 + d2
                    if 56320 ≤ m ∧ m < 57344 then
                      (parseStringBody fuel rest3).map
                        (fun p => (Char.ofNat (65536 + (n - 55296) * 1024 + (m - 56320)) :: p.fst, p.snd))
                    else none
                  | _, _, _, _ => none
                | _ => none
              else none
            | _, _, _, _ => none
          | _ => none
        else none
    else if c.toNat < 32 then none
    else (parseStringBody fuel rest).map (fun p => (c :: p.fst, p.snd))

/-- Split a leading run of decimal digits from the input. -/
def takeDigits : List Char → List Char × List Char
  | [] => ([], [])
  | c :: rest =>
    if '0' ≤ c ∧ c ≤ '9' then
      let p := takeDigits rest
      (c :: p.fst, p.snd)
    else ([], c :: rest)

/-- Numeric value of a digit run. -/
def digitsToNat (ds : List Char) : Nat :=
  ds.foldl (fun acc c => acc * 10 + (c.toNat - 48)) 0

/-- Parse a JSON integer literal (optional minus sign, no leading zeros).
Fractional or exponent syntax is outside the modelled wire schema and is
rejected rather than misread. -/
def parseNumber (cs : List Char) : Option (Json × List Char) :=
  let p := match cs with
    | '-' :: rest => (true, rest)
    | _ => (false, cs)
  match takeDigits p.snd with
  | ([], _) => none
  | (ds, rest) =>
    if 1 < ds.length ∧ ds.head? = some '0' then none
    else
      match rest with
      | '.' :: _ => none
      | 'e' :: _ => none
      | 'E' :: _ => none
      | _ =>
        let n : Int := Int.ofNat (digitsToNat ds)
        some (Json.num (if p.fst then -n else n), rest)

mutual

/-- Fuelled recursive-descent parser for one JSON value; returns the
value and the unconsumed input. -/
def jsonParseVal : Nat → List Char → Option (Json × List Char)
  | 0, _ => none
  | fuel + 1, cs =>
    match skipWs cs with
    | [] => none
    | 'n' :: 'u' :: 'l' :: 'l' :: rest => some (Json.null, rest)
    | 't' :: 'r' :: 'u' :: 'e' :: rest => some (Json.bool true, rest)
    | 'f' :: 'a' :: 'l' :: 's' :: 'e' :: rest => some (Json.bool false, rest)
    | '"' :: rest =>
      (parseStringBody (rest.length + 1) rest).map
        (fun p => (Json.str (String.mk p.fst), p.snd))
    | '[' :: rest =>
      (match skipWs rest with
       | ']' :: rest1 => some (Json.arr [], rest1)
       | _ => (jsonParseElems fuel rest).map (fun p => (Json.arr p.fst, p.snd)))
    | '\x7b' :: rest =>
      (match skipWs rest with
       | '\x7d' :: rest1 => some (Json.obj [], rest1)
       | _ => (jsonParseMembers fuel rest).map (fun p => (Json.obj p.fst, p.snd)))
    | c :: rest =>
      if c == '-' ∨ ('0' ≤ c ∧ c ≤ '9') then parseNumber (c :: rest)
      else none

/-- Parse the comma-separated elements of a nonempty JSON array, up to
and including the closing bracket. -/
def jsonParseElems : Nat → List Char → Option (List Json × List Char)
  | 0, _ => none
  | fuel + 1, cs =>
    match jsonParseVal fuel cs with
    | none => none
    | some (v, rest) =>
      match skipWs rest with
      | ',' :: rest1 => (jsonParseElems fuel rest1).map (fun p => (v :: p.fst, p.snd))
      | ']' :: rest1 => some ([v], rest1)
      | _ => none

/-- Parse the comma-separated members of a nonempty JSON object, up to
and including the closing brace. -/
def jsonParseMembers : Nat → List Char → Option (List (String × Json) × List Char)
  | 0, _ => none
  | fuel + 1, cs =>
    match skipWs cs with
    | '"' :: rest =>
      (match parseStringBody (rest.length + 1) rest with
       | none => none
       | some (key, rest1) =>
         match skipWs rest1 with
         | ':' :: rest2 =>
           (match jsonParseVal fuel rest2 with
            | none => none
            | some (v, rest3) =>
              match skipWs rest3 with
              | ',' :: rest4 =>
                (jsonParseMembers fuel rest4).map
                  (fun p => ((String.mk key, v) :: p.fst, p.snd))
              | '\x7d' :: rest4 => some ([(String.mk key, v)], rest4)
              | _ => none)
         | _ => none)
    | _ => none

end

/-- Parse a whole JSON document: one value, with only whitespace allowed
after it. Two fuel units per character always suffice, since at least one
character is consumed across every two nested calls. -/
def jsonParse (t : String) : Option Json :=
  match jsonParseVal (2 * t.length + 2) t.data with
  | some (v, rest) => if (skipWs rest).isEmpty then some v else none
  | none => none

/-- Function `serde_json::from_str::<InterfaceStatus>` of the source: parse the text as JSON,
then deserialize the value into the struct. -/
def interface_status_from_str (t : String) : Except String InterfaceStatus :=
  match jsonParse t with
  | none => Except.error "expected value: syntax error"
  | some j => deInterfaceStatus j

/-- Enum `AppError` from the source: three variants. `Json` carries a
serde_json diagnostic; `Io` and `Other` carry an io::Error, modelled by
its message text. -/
inductive AppError where
  | Json : String → AppError
  | Io : String → AppError
  | Other : String → AppError
deriving Repr, DecidableEq

/-- Outcome of awaiting the spawned ssh child process: either an I/O
error from the process facility (spawn failure), or an exit status
(success flag) together with the raw stdout and stderr bytes. -/
inductive SpawnOutcome where
  | err : String → SpawnOutcome
  | out : Bool → List Nat → List Nat → SpawnOutcome
deriving Repr, DecidableEq

/-- The part of `fetch_interface_status` after the child process ran,
applied to the spawn outcome: a spawn failure becomes `AppError::Io` (via
the From impl for io::Error); a non-zero exit becomes `AppError::Other`
wrapping the message `format!("SSH command failed: {}", stderr)` with the
lossily decoded stderr; invalid stdout encoding becomes `AppError::Other`
(via the From impl for FromUtf8Error); a serde_json failure becomes
`AppError::Json`; otherwise the parsed status is returned. -/
def run_output : SpawnOutcome → Except AppError InterfaceStatus
  | SpawnOutcome.err e => Except.error (AppError.Io e)
  | SpawnOutcome.out success stdout stderr =>
    if success then
      match utf8Decode stdout with
      | none => Except.error (AppError.Other "invalid utf-8 sequence")
      | some t =>
        match interface_status_from_str t with
        | Except.error e => Except.error (AppError.Json e)
        | Except.ok s => Except.ok s
    else
      Except.error (AppError.Other ("SSH command failed: " ++ utf8DecodeLossy stderr))

/-- Function `fetch_interface_status` from the source, with the external world
(the ssh child process) abstracted as a function from the argument list
to a spawn outcome: the default configuration is built, the ssh argument
list constructed from it, the child invoked on exactly those arguments,
and its outcome validated, decoded and parsed. -/
def fetch_interface_status (spawn : List String → SpawnOutcome) :
    Except AppError InterfaceStatus :=
  run_output (spawn (build_args OpenWrtConfig.default))

/-- Which `AppError` variant an erroneous fetch result carries (used to
compare the variants reached by different failure modes). -/
def errorVariant : Except AppError InterfaceStatus → Option Nat
  | Except.error (AppError.Json _) => some 0
  | Except.error (AppError.Io _) => some 1
  | Except.error (AppError.Other _) => some 2
  | Except.ok _ => none

/-- Remove from a field list every binding whose key is in `names`. -/
def eraseKeys : List (String × Json) → List String → List (String × Json)
  | [], _ => []
  | kv :: rest, names =>
    if kv.fst ∈ names then eraseKeys rest names
    else kv :: eraseKeys rest names

theorem except_bind_ok {ε α β : Type} {x : Except ε α} {f : α → Except ε β} {b : β}
    (h : x >>= f = Except.ok b) : ∃ a, x = Except.ok a ∧ f a = Except.ok b := by
  cases x with
  | error e => exact absurd h (by simp [Bind.bind, Except.bind])
  | ok a => exact ⟨a, rfl, by simpa [Bind.bind, Except.bind] using h⟩

theorem reqField_ok_lookup {α : Type} {fs : List (String × Json)} {name : String}
    {de : Json → Except String α} {a : α} (h : reqField fs name de = Except.ok a) :
    ∃ v, lookupKey fs name = some v ∧ de v = Except.ok a := by
  unfold reqField at h
  cases hv : lookupKey fs name with
  | none => rw [hv] at h; exact Except.noConfusion h
  | some v => rw [hv] at h; exact ⟨v, rfl, h⟩

theorem reqField_lookup_congr {α : Type} {fs fs' : List (String × Json)} {name : String}
    (de : Json → Except String α) (h : lookupKey fs' name = lookupKey fs name) :
    reqField fs' name de = reqField fs name de := by
  unfold reqField
  rw [h]

theorem optField_absent {α : Type} {fs : List (String × Json)} {name : String}
    (de : Json → Except String α) (h : lookupKey fs name = none) :
    optField fs name de = Except.ok none := by
  unfold optField
  rw [h]

theorem deBool_ok {v : Json} {b : Bool} (h : deBool v = Except.ok b) :
    v = Json.bool b := by
  cases v <;> simp [deBool] at h
  rw [h]

theorem deString_ok {v : Json} {x : String} (h : deString v = Except.ok x) :
    v = Json.str x := by
  cases v <;> simp [deString] at h
  rw [h]

theorem deJson_ok {v w : Json} (h : deJson v = Except.ok w) : v = w := by
  simpa [deJson] using h

theorem deU64_ok {v : Json} {u : Nat} (h : deU64 v = Except.ok u) :
    v = Json.num (Int.ofNat u) := by
  cases v <;> simp only [deU64] at h <;> try exact Except.noConfusion h
  case num n =>
    split at h
    · next h0 =>
      injection h with h
      have hn : Int.ofNat n.toNat = n := by
        rw [Int.ofNat_eq_natCast]
        omega
      rw [← h, hn]
    · exact Except.noConfusion h

theorem deI32_ok {v : Json} {i : Int} (h : deI32 v = Except.ok i) :
    v = Json.num i := by
  cases v <;> simp only [deI32] at h <;> try exact Except.noConfusion h
  case num n =>
    split at h
    · injection h with h
      rw [h]
    · exact Except.noConfusion h

theorem deU8_ok {v : Json} {m : Nat} (h : deU8 v = Except.ok m) :
    v = Json.num (Int.ofNat m) ∧ m ≤ 255 := by
  cases v <;> simp only [deU8] at h <;> try exact Except.noConfusion h
  case num n =>
    split at h
    · next h0 =>
      injection h with h
      have hn : Int.ofNat n.toNat = n := by
        rw [Int.ofNat_eq_natCast]
        omega
      constructor
      · rw [← h, hn]
      · omega
    · exact Except.noConfusion h

theorem deList_ok_arr {α : Type} {de : Json → Except String α} {v : Json} {as : List α}
    (h : deList de v = Except.ok as) :
    ∃ es, v = Json.arr es ∧ deListAux de es = Except.ok as := by
  cases v <;> simp [deList] at h
  case arr es => exact ⟨es, rfl, h⟩

theorem deListAux_string_ok {vs : List Json} {xs : List String}
    (h : deListAux deString vs = Except.ok xs) : vs = xs.map Json.str := by
  induction vs generalizing xs with
  | nil =>
    simp [deListAux] at h
    subst h
    rfl
  | cons v rest ih =>
    simp only [deListAux] at h
    obtain ⟨x, hx, h⟩ := except_bind_ok h
    obtain ⟨ys, hys, h⟩ := except_bind_ok h
    cases h
    rw [deString_ok hx, ih hys]
    rfl

theorem deListAux_mem {α : Type} {de : Json → Except String α} {vs : List Json}
    {as : List α} (h : deListAux de vs = Except.ok as) :
    ∀ a ∈ as, ∃ v ∈ vs, de v = Except.ok a := by
  induction vs generalizing as with
  | nil =>
    simp [deListAux] at h
    subst h
    intro a ha
    exact absurd ha (List.not_mem_nil a)
  | cons v rest ih =>
    simp only [deListAux] at h
    obtain ⟨x, hx, h⟩ := except_bind_ok h
    obtain ⟨ys, hys, h⟩ := except_bind_ok h
    cases h
    intro a ha
    rcases List.mem_cons.mp ha with h1 | h1
    · exact ⟨v, List.mem_cons_self v rest, h1 ▸ hx⟩
    · obtain ⟨w, hw, hde⟩ := ih hys a h1
      exact ⟨w, List.mem_cons_of_mem v hw, hde⟩

theorem optString_ok {fs : List (String × Json)} {name : String} {o : Option String}
    (h : optField fs name deString = Except.ok o) :
    lookupKey fs name = none ∨ lookupKey fs name = some (serOptString o) := by
  unfold optField at h
  cases hv : lookupKey fs name with
  | none => exact Or.inl rfl
  | some v =>
    rw [hv] at h
    right
    cases v <;> simp [deString, Bind.bind, Except.bind] at h <;>
      simp [serOptString, ← h]

theorem optJson_ok {fs : List (String × Json)} {name : String} {o : Option Json}
    (h : optField fs name deJson = Except.ok o) :
    lookupKey fs name = none ∨ lookupKey fs name = some (serOptJson o) := by
  unfold optField at h
  cases hv : lookupKey fs name with
  | none => exact Or.inl rfl
  | some v =>
    rw [hv] at h
    right
    cases v <;> simp [deJson, Bind.bind, Except.bind] at h <;>
      simp [serOptJson, ← h]

/-- The field reads performed by a successful `InterfaceStatus`
deserialization: the duplicate-key check and one read equation per
struct field (under its wire name). -/
structure ISReads (fs : List (String × Json)) (s : InterfaceStatus) : Prop where
  dup_e : noDupField fs interfaceStatusFieldNames = true
  up_e : reqField fs "up" deBool = Except.ok s.up
  pending_e : reqField fs "pending" deBool = Except.ok s.pending
  available_e : reqField fs "available" deBool = Except.ok s.available
  autostart_e : reqField fs "autostart" deBool = Except.ok s.autostart
  dynamic_e : reqField fs "dynamic" deBool = Except.ok s.dynamic
  uptime_e : reqField fs "uptime" deU64 = Except.ok s.uptime
  l3_device_e : optField fs "l3_device" deString = Except.ok s.l3_device
  proto_e : optField fs "proto" deString = Except.ok s.proto
  updated_e : reqField fs "updated" (deList deString) = Except.ok s.updated
  metric_e : reqField fs "metric" deI32 = Except.ok s.metric
  dns_metric_e : reqField fs "dns_metric" deI32 = Except.ok s.dns_metric
  delegation_e : reqField fs "delegation" deBool = Except.ok s.delegation
  ipv4_address_e : reqField fs "ipv4-address" (deList deIpv4) = Except.ok s.ipv4_address
  ipv6_address_e : reqField fs "ipv6-address" (deList deString) = Except.ok s.ipv6_address
  ipv6_prefix_e :
    reqField fs "ipv6-prefix" (deList deString) = Except.ok ( InterfaceStatus.ipv6_prefix s)
  ipv6_prefix_assignment_e :
    reqField fs "ipv6-prefix-assignment" (deList deString) = Except.ok s.ipv6_prefix_assignment
  route_e : reqField fs "route" (deList deRoute) = Except.ok s.route
  dns_server_e : reqField fs "dns-server" (deList deString) = Except.ok s.dns_server
  dns_search_e : reqField fs "dns-search" (deList deString) = Except.ok s.dns_search
  neighbors_e : reqField fs "neighbors" (deList deString) = Except.ok s.neighbors
  inactive_e : optField fs "inactive" deJson = Except.ok s.inactive
  data_e : reqField fs "data" deJson = Except.ok s.data

theorem deInterfaceStatus_ok {fs : List (String × Json)} {s : InterfaceStatus}
    (h : deInterfaceStatus (Json.obj fs) = Except.ok s) : ISReads fs s := by
  simp only [deInterfaceStatus] at h
  by_cases hdup : noDupField fs interfaceStatusFieldNames = true
  case neg =>
    rw [if_neg hdup] at h
    exact Except.noConfusion h
  case pos =>
    rw [if_pos hdup] at h
    obtain ⟨a1, e1, h⟩ := except_bind_ok h
    obtain ⟨a2, e2, h⟩ := except_bind_ok h
    obtain ⟨a3, e3, h⟩ := except_bind_ok h
    obtain ⟨a4, e4, h⟩ := except_bind_ok h
    obtain ⟨a5, e5, h⟩ := except_bind_ok h
    obtain ⟨a6, e6, h⟩ := except_bind_ok h
    obtain ⟨a7, e7, h⟩ := except_bind_ok h
    obtain ⟨a8, e8, h⟩ := except_bind_ok h
    obtain ⟨a9, e9, h⟩ := except_bind_ok h
    obtain ⟨a10, e10, h⟩ := except_bind_ok h
    obtain ⟨a11, e11, h⟩ := except_bind_ok h
    obtain ⟨a12, e12, h⟩ := except_bind_ok h
    obtain ⟨a13, e13, h⟩ := except_bind_ok h
    obtain ⟨a14, e14, h⟩ := except_bind_ok h
    obtain ⟨a15, e15, h⟩ := except_bind_ok h
    obtain ⟨a16, e16, h⟩ := except_bind_ok h
    obtain ⟨a17, e17, h⟩ := except_bind_ok h
    obtain ⟨a18, e18, h⟩ := except_bind_ok h
    obtain ⟨a19, e19, h⟩ := except_bind_ok h
    obtain ⟨a20, e20, h⟩ := except_bind_ok h
    obtain ⟨a21, e21, h⟩ := except_bind_ok h
    obtain ⟨a22, e22, h⟩ := except_bind_ok h
    injection h with h
    subst h
    exact ⟨hdup, e1, e2, e3, e4, e5, e6, e7, e8, e9, e10, e11, e12, e13, e14,
      e15, e16, e17, e18, e19, e20, e21, e22⟩

theorem deIpv4_fields {fs : List (String × Json)} {a : Ipv4Address}
    (h : deIpv4 (Json.obj fs) = Except.ok a) :
    noDupField fs ipv4FieldNames = true ∧
    reqField fs "address" deString = Except.ok a.address ∧
    reqField fs "mask" deU8 = Except.ok a.mask := by
  simp only [deIpv4] at h
  by_cases hdup : noDupField fs ipv4FieldNames = true
  case neg =>
    rw [if_neg hdup] at h
    exact Except.noConfusion h
  case pos =>
    rw [if_pos hdup] at h
    obtain ⟨a1, e1, h⟩ := except_bind_ok h
    obtain ⟨a2, e2, h⟩ := except_bind_ok h
    injection h with h
    subst h
    exact ⟨hdup, e1, e2⟩

theorem deRoute_fields {fs : List (String × Json)} {r : Route}
    (h : deRoute (Json.obj fs) = Except.ok r) :
    noDupField fs routeFieldNames = true ∧
    reqField fs "target" deString = Except.ok r.target ∧
    reqField fs "mask" deU8 = Except.ok r.mask ∧
    reqField fs "nexthop" deString = Except.ok r.nexthop ∧
    optField fs "source" deString = Except.ok r.source := by
  simp only [deRoute] at h
  by_cases hdup : noDupField fs routeFieldNames = true
  case neg =>
    rw [if_neg hdup] at h
    exact Except.noConfusion h
  case pos =>
    rw [if_pos hdup] at h
    obtain ⟨a1, e1, h⟩ := except_bind_ok h
    obtain ⟨a2, e2, h⟩ := except_bind_ok h
    obtain ⟨a3, e3, h⟩ := except_bind_ok h
    obtain ⟨a4, e4, h⟩ := except_bind_ok h
    injection h with h
    subst h
    exact ⟨hdup, e1, e2, e3, e4⟩

theorem deIpv4_mask_le {v : Json} {a : Ipv4Address} (h : deIpv4 v = Except.ok a) :
    a.mask ≤ 255 := by
  cases v <;> first
    | exact Except.noConfusion h
    | · obtain ⟨_, _, hm⟩ := deIpv4_fields h
        obtain ⟨w, _, hw⟩ := reqField_ok_lookup hm
        exact (deU8_ok hw).2

theorem deRoute_mask_le {v : Json} {r : Route} (h : deRoute v = Except.ok r) :
    r.mask ≤ 255 := by
  cases v <;> first
    | exact Except.noConfusion h
    | · obtain ⟨_, _, hm, _, _⟩ := deRoute_fields h
        obtain ⟨w, _, hw⟩ := reqField_ok_lookup hm
        exact (deU8_ok hw).2

theorem lookupKey_cons (k1 : String) (v1 : Json) (rest : List (String × Json))
    (n : String) :
    lookupKey ((k1, v1) :: rest) n =
      if k1 = n then some v1 else lookupKey rest n := by
  by_cases h : k1 = n
  · simp [lookupKey, h]
  · simp [lookupKey, h]

theorem countKey_cons (k1 : String) (v1 : Json) (rest : List (String × Json))
    (n : String) :
    countKey ((k1, v1) :: rest) n =
      (if k1 = n then 1 else 0) + countKey rest n := by
  by_cases h : k1 = n
  · subst h
    simp [countKey, List.filter_cons]
    omega
  · simp [countKey, List.filter_cons, h]

theorem eraseKeys_cons_mem {k1 : String} (v1 : Json) (rest : List (String × Json))
    {names : List String} (h : k1 ∈ names) :
    eraseKeys ((k1, v1) :: rest) names = eraseKeys rest names := by
  simp [eraseKeys, h]

theorem eraseKeys_cons_not_mem {k1 : String} (v1 : Json) (rest : List (String × Json))
    {names : List String} (h : ¬ k1 ∈ names) :
    eraseKeys ((k1, v1) :: rest) names = (k1, v1) :: eraseKeys rest names := by
  simp [eraseKeys, h]

theorem lookupKey_eraseKeys_not_mem (fs : List (String × Json)) (names : List String)
    (k : String) (hk : ¬ k ∈ names) :
    lookupKey (eraseKeys fs names) k = lookupKey fs k := by
  induction fs with
  | nil => rfl
  | cons kv rest ih =>
    obtain ⟨k1, v1⟩ := kv
    by_cases h1 : k1 ∈ names
    · have hne : ¬ k1 = k := by
        intro hcontra
        rw [hcontra] at h1
        exact hk h1
      rw [eraseKeys_cons_mem v1 rest h1, ih, lookupKey_cons, if_neg hne]
    · rw [eraseKeys_cons_not_mem v1 rest h1, lookupKey_cons, lookupKey_cons, ih]

theorem lookupKey_eraseKeys_mem (fs : List (String × Json)) (names : List String)
    (k : String) (hk : k ∈ names) :
    lookupKey (eraseKeys fs names) k = none := by
  induction fs with
  | nil => rfl
  | cons kv rest ih =>
    obtain ⟨k1, v1⟩ := kv
    by_cases h1 : k1 ∈ names
    · rw [eraseKeys_cons_mem v1 rest h1]
      exact ih
    · have hne : ¬ k1 = k := by
        intro hcontra
        rw [hcontra] at h1
        exact h1 hk
      rw [eraseKeys_cons_not_mem v1 rest h1, lookupKey_cons, if_neg hne]
      exact ih

theorem countKey_eraseKeys (fs : List (String × Json)) (names : List String)
    (n : String) :
    countKey (eraseKeys fs names) n = if n ∈ names then 0 else countKey fs n := by
  induction fs with
  | nil =>
    by_cases hc : n ∈ names
    · simp [eraseKeys, countKey, hc]
    · simp [eraseKeys, countKey, hc]
  | cons kv rest ih =>
    obtain ⟨k1, v1⟩ := kv
    by_cases h1 : k1 ∈ names
    · rw [eraseKeys_cons_mem v1 rest h1, ih]
      by_cases hc : n ∈ names
      · rw [if_pos hc, if_pos hc]
      · have hne : ¬ k1 = n := by
          intro hcontra
          rw [hcontra] at h1
          exact hc h1
        rw [if_neg hc, if_neg hc, countKey_cons, if_neg hne]
        omega
    · rw [eraseKeys_cons_not_mem v1 rest h1, countKey_cons, countKey_cons, ih]
      by_cases hc : n ∈ names
      · have hne : ¬ k1 = n := by
          intro hcontra
          rw [← hcontra] at hc
          exact h1 hc
        rw [if_pos hc, if_pos hc, if_neg hne]
      · rw [if_neg hc, if_neg hc]

theorem noDupField_eraseKeys {fs : List (String × Json)} {allNames : List String}
    (names : List String) (h : noDupField fs allNames = true) :
    noDupField (eraseKeys fs names) allNames = true := by
  unfold noDupField at h ⊢
  rw [List.all_eq_true] at h ⊢
  intro n hn
  have h2 := h n hn
  rw [decide_eq_true_eq] at h2 ⊢
  rw [countKey_eraseKeys]
  by_cases hc : n ∈ names
  · rw [if_pos hc]
    omega
  · rw [if_neg hc]
    exact h2

theorem deInterfaceStatus_mandatory_present {fs : List (String × Json)}
    {s : InterfaceStatus} (h : deInterfaceStatus (Json.obj fs) = Except.ok s) :
    ∀ n ∈ mandatoryFieldNames, (lookupKey fs n).isSome = true := by
  have r := deInterfaceStatus_ok h
  intro n hn
  have hsome : ∀ {α : Type} {de : Json → Except String α} {a : α},
      reqField fs n de = Except.ok a → (lookupKey fs n).isSome = true := by
    intro α de a ha
    obtain ⟨v, hv, _⟩ := reqField_ok_lookup ha
    rw [hv]
    rfl
  simp only [mandatoryFieldNames, List.mem_cons, List.not_mem_nil, or_false] at hn
  rcases hn with rfl | rfl | rfl | rfl | rfl | rfl | rfl | rfl | rfl | rfl | rfl |
    rfl | rfl | rfl | rfl | rfl | rfl | rfl | rfl
  · exact hsome r.up_e
  · exact hsome r.pending_e
  · exact hsome r.available_e
  · exact hsome r.autostart_e
  · exact hsome r.dynamic_e
  · exact hsome r.uptime_e
  · exact hsome r.updated_e
  · exact hsome r.metric_e
  · exact hsome r.dns_metric_e
  · exact hsome r.delegation_e
  · exact hsome r.ipv4_address_e
  · exact hsome r.ipv6_address_e
  · exact hsome r.ipv6_prefix_e
  · exact hsome r.ipv6_prefix_assignment_e
  · exact hsome r.route_e
  · exact hsome r.dns_server_e
  · exact hsome r.dns_search_e
  · exact hsome r.neighbors_e
  · exact hsome r.data_e

theorem deInterfaceStatus_missing_mandatory {fs : List (String × Json)} {n : String}
    (hn : n ∈ mandatoryFieldNames) (habs : lookupKey fs n = none) :
    ∃ e, deInterfaceStatus (Json.obj fs) = Except.error e := by
  cases h : deInterfaceStatus (Json.obj fs) with
  | error e => exact ⟨e, rfl⟩
  | ok s =>
    have hp := deInterfaceStatus_mandatory_present h n hn
    rw [habs] at hp
    exact absurd hp (by simp)

/-- A complete concrete wire object (all 22 fields present, well typed),
shaped like a real `ubus` interface status reply. -/
def fullWireFields : List (String × Json) :=
  [("up", Json.bool true),
   ("pending", Json.bool false),
   ("available", Json.bool true),
   ("autostart", Json.bool true),
   ("dynamic", Json.bool false),
   ("uptime", Json.num 90061),
   ("l3_device", Json.str "eth1"),
   ("proto", Json.str "dhcp"),
   ("updated", Json.arr [Json.str "addresses"]),
   ("metric", Json.num 0),
   ("dns_metric", Json.num 0),
   ("delegation", Json.bool true),
   ("ipv4-address",
     Json.arr [Json.obj [("address", Json.str "192.168.8.100"), ("mask", Json.num 24)]]),
   ("ipv6-address", Json.arr []),
   ("ipv6-prefix", Json.arr []),
   ("ipv6-prefix-assignment", Json.arr []),
   ("route",
     Json.arr [Json.obj [("target", Json.str "0.0.0.0"), ("mask", Json.num 0),
       ("nexthop", Json.str "192.168.8.1"), ("source", Json.str "192.168.8.100/32")]]),
   ("dns-server", Json.arr [Json.str "192.168.8.1"]),
   ("dns-search", Json.arr []),
   ("neighbors", Json.arr []),
   ("inactive", Json.null),
   ("data", Json.obj [])]

/-- The status that `fullWireFields` deserializes to. -/
def fullStatus : InterfaceStatus :=
  { up := true
    pending := false
    available := true
    autostart := true
    dynamic := false
    uptime := 90061
    l3_device := some "eth1"
    proto := some "dhcp"
    updated := ["addresses"]
    metric := 0
    dns_metric := 0
    delegation := true
    ipv4_address := [Ipv4Address.mk "192.168.8.100" 24]
    ipv6_address := []
    ipv6_prefix := []
    ipv6_prefix_assignment := []
    route := [Route.mk "0.0.0.0" 0 "192.168.8.1" (some "192.168.8.100/32")]
    dns_server := ["192.168.8.1"]
    dns_search := []
    neighbors := []
    inactive := none
    data := Json.obj [] }

theorem ok_bind {ε α β : Type} (a : α) (f : α → Except ε β) :
    (Except.ok a : Except ε α) >>= f = f a := rfl

/-- C1 counterexample: `fullWireFields` parses, but removing only the
collection field `updated` makes parsing fail with a missing-field error
instead of defaulting the field to the empty sequence, refuting the claim
that absent collection fields parse to the empty sequence. -/
theorem C1_counterexample :
    deInterfaceStatus (Json.obj fullWireFields) = Except.ok fullStatus ∧
    deInterfaceStatus (Json.obj (eraseKeys fullWireFields ["updated"])) =
      Except.error "missing field updated" :=
  ⟨rfl, rfl⟩

/-- C1 (amended): for every wire JSON object, absent optional fields
(`l3_device`, `proto`, `inactive`) parse to the absent value and never by
themselves cause failure (erasing them from any successfully parsed
object still parses, with those fields absent), while absence of ANY
mandatory field, the collection fields included (they carry no serde
default), makes parsing fail. -/
theorem C1_optional_default_collections_required :
    (∀ (fs : List (String × Json)) (s : InterfaceStatus),
      deInterfaceStatus (Json.obj fs) = Except.ok s →
        (lookupKey fs "l3_device" = none → s.l3_device = none) ∧
        (lookupKey fs "proto" = none → s.proto = none) ∧
        (lookupKey fs "inactive" = none → s.inactive = none) ∧
        deInterfaceStatus (Json.obj (eraseKeys fs optionalFieldNames)) =
          Except.ok { s with l3_device := none, proto := none, inactive := none }) ∧
    (∀ (fs : List (String × Json)) (n : String), n ∈ mandatoryFieldNames →
      lookupKey fs n = none →
        ∃ e, deInterfaceStatus (Json.obj fs) = Except.error e) := by
  constructor
  · intro fs s h
    have r := deInterfaceStatus_ok h
    refine ⟨?_, ?_, ?_, ?_⟩
    · intro habs
      have hcmp := (optField_absent deString habs).symm.trans r.l3_device_e
      injection hcmp with hcmp
      exact hcmp.symm
    · intro habs
      have hcmp := (optField_absent deString habs).symm.trans r.proto_e
      injection hcmp with hcmp
      exact hcmp.symm
    · intro habs
      have hcmp := (optField_absent deJson habs).symm.trans r.inactive_e
      injection hcmp with hcmp
      exact hcmp.symm
    · have hdup2 := noDupField_eraseKeys optionalFieldNames r.dup_e
      have cr : ∀ {α : Type} (nm : String) (de : Json → Except String α),
          ¬ nm ∈ optionalFieldNames →
          reqField (eraseKeys fs optionalFieldNames) nm de = reqField fs nm de :=
        fun nm de hnm =>
          reqField_lookup_congr de (lookupKey_eraseKeys_not_mem fs optionalFieldNames nm hnm)
      simp only [deInterfaceStatus]
      rw [if_pos hdup2]
      simp only [cr "up" deBool (by decide), cr "pending" deBool (by decide),
        cr "available" deBool (by decide), cr "autostart" deBool (by decide),
        cr "dynamic" deBool (by decide), cr "uptime" deU64 (by decide),
        cr "updated" (deList deString) (by decide), cr "metric" deI32 (by decide),
        cr "dns_metric" deI32 (by decide), cr "delegation" deBool (by decide),
        cr "ipv4-address" (deList deIpv4) (by decide),
        cr "ipv6-address" (deList deString) (by decide),
        cr "ipv6-prefix" (deList deString) (by decide),
        cr "ipv6-prefix-assignment" (deList deString) (by decide),
        cr "route" (deList deRoute) (by decide),
        cr "dns-server" (deList deString) (by decide),
        cr "dns-search" (deList deString) (by decide),
        cr "neighbors" (deList deString) (by decide),
        cr "data" deJson (by decide),
        optField_absent deString
          (lookupKey_eraseKeys_mem fs optionalFieldNames "l3_device" (by decide)),
        optField_absent deString
          (lookupKey_eraseKeys_mem fs optionalFieldNames "proto" (by decide)),
        optField_absent deJson
          (lookupKey_eraseKeys_mem fs optionalFieldNames "inactive" (by decide)),
        r.up_e, r.pending_e, r.available_e, r.autostart_e, r.dynamic_e, r.uptime_e,
        r.updated_e, r.metric_e, r.dns_metric_e, r.delegation_e, r.ipv4_address_e,
        r.ipv6_address_e, r.ipv6_prefix_e, r.ipv6_prefix_assignment_e, r.route_e,
        r.dns_server_e, r.dns_search_e, r.neighbors_e, r.data_e, ok_bind]
  · intro fs n hn habs
    exact deInterfaceStatus_missing_mandatory hn habs

/-- C1 witness: the amended theorem applied to the concrete full wire
object: erasing the three optional fields still parses, with those
fields absent. -/
theorem C1_optional_default_collections_required_witness :
    deInterfaceStatus (Json.obj (eraseKeys fullWireFields optionalFieldNames)) =
      Except.ok { fullStatus with l3_device := none, proto := none, inactive := none } :=
  (C1_optional_default_collections_required.1 fullWireFields fullStatus rfl).2.2.2

/-- C3: for every configuration, the ssh argument list is exactly the two
host-key options, then the identity-file flag and path exactly when a
private key path is configured, then the destination `username@host`,
then, as the final argument, the remote command
`ubus call network.interface.{interface} status`; in particular the
identity-file arguments precede the destination, and the command string is
last. -/
theorem C3_ssh_args_order (config : OpenWrtConfig) :
    build_args config =
      ["-o", "StrictHostKeyChecking=no", "-o", "UserKnownHostsFile=/dev/null"]
        ++ (match config.private_key_path with
            | some private_key => ["-i", private_key]
            | none => [])
        ++ [config.username ++ "@" ++ config.host]
        ++ ["ubus call network.interface." ++ config.interface ++ " status"] ∧
    (build_args config).getLast? =
      some ("ubus call network.interface." ++ config.interface ++ " status") := by
  cases h : config.private_key_path with
  | none =>
    constructor
    · simp [build_args, build_command, h]
    · simp [build_args, build_command, h]
  | some k =>
    constructor
    · simp [build_args, build_command, h]
    · simp [build_args, build_command, h]

/-- C9: two configurations that agree on every field except possibly the
port produce the same ssh argument list; no argument is derived from the
port. -/
theorem C9_port_not_in_args (c1 c2 : OpenWrtConfig) (hhost : c1.host = c2.host)
    (huser : c1.username = c2.username) (hiface : c1.interface = c2.interface)
    (hkey : c1.private_key_path = c2.private_key_path) :
    build_args c1 = build_args c2 := by
  obtain ⟨h1, p1, u1, i1, k1⟩ := c1
  obtain ⟨h2, p2, u2, i2, k2⟩ := c2
  dsimp only at hhost huser hiface hkey
  subst hhost
  subst huser
  subst hiface
  subst hkey
  rfl

/-- C9 witness: two default-like configurations differing only in the
port yield identical argument lists. -/
theorem C9_port_not_in_args_witness :
    build_args (OpenWrtConfig.mk "192.168.1.1" 22 "root" "wan" (some "~/.ssh/local")) =
      build_args (OpenWrtConfig.mk "192.168.1.1" 2222 "root" "wan" (some "~/.ssh/local")) :=
  C9_port_not_in_args _ _ rfl rfl rfl rfl

/-- C10: the default configuration is host 192.168.1.1, port 22, user
root, interface wan, and a configured private key path ~/.ssh/local (not
absent); consequently every invocation of `fetch_interface_status`, which
always builds the default configuration, passes ssh exactly the argument
list below, which includes `-i ~/.ssh/local` and targets
`root@192.168.1.1`. -/
theorem C10_default_config_and_invocation :
    OpenWrtConfig.default =
      OpenWrtConfig.mk "192.168.1.1" 22 "root" "wan" (some "~/.ssh/local") ∧
    build_args OpenWrtConfig.default =
      ["-o", "StrictHostKeyChecking=no", "-o", "UserKnownHostsFile=/dev/null",
       "-i", "~/.ssh/local", "root@192.168.1.1",
       "ubus call network.interface.wan status"] ∧
    ∀ (spawn : List String → SpawnOutcome),
      fetch_interface_status spawn = run_output (spawn (build_args OpenWrtConfig.default)) :=
  ⟨rfl, rfl, fun _ => rfl⟩

/-- A concrete status that differs from `fullStatus` only in its uptime,
used to evaluate the formatter on the example inputs of the spec. -/
def statusWithUptime (u : Nat) : InterfaceStatus :=
  { fullStatus with uptime := u }

/-- C4: the formatter output follows the unit breakdown of the spec in every
range (day = 86400 s, hour = 3600 s, minute = 60 s), and agrees with the
four spec examples. -/
theorem C4_format_uptime_spec :
    (∀ (s : InterfaceStatus),
      InterfaceStatus.format_uptime s =
        (if 86400 ≤ s.uptime then
          toString (s.uptime / 86400) ++ "d " ++ toString (s.uptime % 86400 / 3600) ++ "h "
            ++ toString (s.uptime % 3600 / 60) ++ "m " ++ toString (s.uptime % 60) ++ "s"
        else if 3600 ≤ s.uptime then
          toString (s.uptime / 3600) ++ "h " ++ toString (s.uptime % 3600 / 60) ++ "m "
            ++ toString (s.uptime % 60) ++ "s"
        else if 60 ≤ s.uptime then
          toString (s.uptime / 60) ++ "m " ++ toString (s.uptime % 60) ++ "s"
        else
          toString s.uptime ++ "s")) ∧
    InterfaceStatus.format_uptime (statusWithUptime 0) = "0s" ∧
    InterfaceStatus.format_uptime (statusWithUptime 65) = "1m 5s" ∧
    InterfaceStatus.format_uptime (statusWithUptime 3661) = "1h 1m 1s" ∧
    InterfaceStatus.format_uptime (statusWithUptime 90061) = "1d 1h 1m 1s" := by
  refine ⟨?_, rfl, rfl, rfl, rfl⟩
  intro s
  unfold InterfaceStatus.format_uptime
  by_cases h1 : 86400 ≤ s.uptime
  · rw [if_pos (show s.uptime / 86400 > 0 by omega), if_pos h1]
  · rw [if_neg (show ¬ s.uptime / 86400 > 0 by omega), if_neg h1]
    have e1 : s.uptime % 86400 = s.uptime := by omega
    rw [e1]
    by_cases h2 : 3600 ≤ s.uptime
    · rw [if_pos (show s.uptime / 3600 > 0 by omega), if_pos h2]
    · rw [if_neg (show ¬ s.uptime / 3600 > 0 by omega), if_neg h2]
      by_cases h3 : 60 ≤ s.uptime
      · have e2 : s.uptime % 3600 = s.uptime := by omega
        rw [e2, if_pos (show s.uptime / 60 > 0 by omega), if_pos h3]
      · have e2 : s.uptime % 3600 = s.uptime := by omega
        have e3 : s.uptime % 60 = s.uptime := by omega
        rw [e2, if_neg (show ¬ s.uptime / 60 > 0 by omega), if_neg h3, e3]

/-- A wire object identical to `fullWireFields` except that the IPv4
entry has mask 33: outside the 0-32 prefix-length range, inside u8. -/
def mask33WireFields : List (String × Json) :=
  eraseKeys fullWireFields ["ipv4-address"] ++
    [("ipv4-address",
      Json.arr [Json.obj [("address", Json.str "192.168.8.100"), ("mask", Json.num 33)]])]

/-- The status that `mask33WireFields` deserializes to. -/
def mask33Status : InterfaceStatus :=
  { fullStatus with ipv4_address := [Ipv4Address.mk "192.168.8.100" 33] }

/-- C8 counterexample: a wire object whose IPv4 mask is 33 parses
successfully and yields a status containing the out-of-range mask 33,
refuting the claim that parsed masks lie in 0-32 and that out-of-range
masks cannot appear in a parsed status. -/
theorem C8_counterexample :
    deInterfaceStatus (Json.obj mask33WireFields) = Except.ok mask33Status ∧
    mask33Status.ipv4_address = [Ipv4Address.mk "192.168.8.100" 33] ∧
    ¬ (33 ≤ 32) :=
  ⟨rfl, rfl, by omega⟩

/-- C8 (amended): the mask fields are u8-typed, so every successfully
parsed IPv4 address and route has mask at most 255, and a mask outside
0-255 is rejected by the deserializer; values 33-255 are accepted (the
0-32 prefix-length range of the spec is not enforced by the code). -/
theorem C8_mask_u8_range :
    (∀ (fs : List (String × Json)) (s : InterfaceStatus),
      deInterfaceStatus (Json.obj fs) = Except.ok s →
        (∀ a ∈ s.ipv4_address, a.mask ≤ 255) ∧ (∀ r ∈ s.route, r.mask ≤ 255)) ∧
    (∀ (n : Int), (n < 0 ∨ 255 < n) → ∃ e, deU8 (Json.num n) = Except.error e) := by
  constructor
  · intro fs s h
    have r := deInterfaceStatus_ok h
    constructor
    · intro a ha
      obtain ⟨v, _, hv⟩ := reqField_ok_lookup r.ipv4_address_e
      obtain ⟨es, _, hes⟩ := deList_ok_arr hv
      obtain ⟨w, _, hw⟩ := deListAux_mem hes a ha
      exact deIpv4_mask_le hw
    · intro rt hrt
      obtain ⟨v, _, hv⟩ := reqField_ok_lookup r.route_e
      obtain ⟨es, _, hes⟩ := deList_ok_arr hv
      obtain ⟨w, _, hw⟩ := deListAux_mem hes rt hrt
      exact deRoute_mask_le hw
  · intro n hn
    refine ⟨"invalid value: out of range for u8", ?_⟩
    simp only [deU8]
    rw [if_neg (show ¬ (0 ≤ n ∧ n ≤ 255) by omega)]

/-- C8 witness: the amended bound evaluated on the concrete parse of the
full wire object, and the rejection of the concrete out-of-range mask
value 256. -/
theorem C8_mask_u8_range_witness :
    ((∀ a ∈ fullStatus.ipv4_address, a.mask ≤ 255) ∧
     (∀ r ∈ fullStatus.route, r.mask ≤ 255)) ∧
    ∃ e, deU8 (Json.num 256) = Except.error e :=
  ⟨C8_mask_u8_range.1 fullWireFields fullStatus rfl,
   C8_mask_u8_range.2 256 (by decide)⟩

/-- C6: for every run whose stdout decodes to a wire text that parses as
a JSON object missing one of the mandatory fields, deserialization fails,
and the fetch returns the parse-error kind (the `Json` variant of
`AppError`) carrying the parse diagnostic; no status value is returned. -/
theorem C6_missing_field_yields_json_error :
    ∀ (spawn : List String → SpawnOutcome) (stdout stderr : List Nat) (t : String)
      (fs : List (String × Json)) (n : String),
      spawn (build_args OpenWrtConfig.default) = SpawnOutcome.out true stdout stderr →
      utf8Decode stdout = some t →
      jsonParse t = some (Json.obj fs) →
      n ∈ mandatoryFieldNames →
      lookupKey fs n = none →
      ∃ e, interface_status_from_str t = Except.error e ∧
        fetch_interface_status spawn = Except.error (AppError.Json e) := by
  intro spawn stdout stderr t fs n hspawn hdec hparse hn habs
  obtain ⟨e, he⟩ := deInterfaceStatus_missing_mandatory hn habs
  have hfs : interface_status_from_str t = Except.error e := by
    unfold interface_status_from_str
    rw [hparse]
    exact he
  refine ⟨e, hfs, ?_⟩
  unfold fetch_interface_status
  rw [hspawn]
  simp only [run_output, hdec, hfs]
  rw [if_pos trivial]

/-- A run whose remote command succeeds but prints a JSON object missing
the mandatory fields beyond `up`. -/
def c6Spawn : List String → SpawnOutcome :=
  fun _ => SpawnOutcome.out true (asciiBytes "\x7b\"up\": true\x7d") []

/-- C6 witness: the theorem applied to the concrete run printing a JSON
object that has only the `up` field. -/
theorem C6_missing_field_yields_json_error_witness :
    ∃ e, interface_status_from_str "\x7b\"up\": true\x7d" = Except.error e ∧
      fetch_interface_status c6Spawn = Except.error (AppError.Json e) :=
  C6_missing_field_yields_json_error c6Spawn (asciiBytes "\x7b\"up\": true\x7d") []
    "\x7b\"up\": true\x7d" [("up", Json.bool true)] "pending" rfl rfl rfl (by decide) rfl

/-- A run whose remote command exits non-zero with stderr "boom". -/
def cmdFailSpawn : List String → SpawnOutcome :=
  fun _ => SpawnOutcome.out false [] (asciiBytes "boom")

/-- A run whose remote command succeeds but prints the invalid UTF-8
byte 0xFF on stdout. -/
def badUtf8Spawn : List String → SpawnOutcome :=
  fun _ => SpawnOutcome.out true [255] []

/-- C2 counterexample: a non-zero exit and an invalid stdout encoding are
two different failure modes, yet both are returned as the same error
variant (`AppError::Other`); the error type therefore does not have four
variants with one distinct variant per failure mode. -/
theorem C2_counterexample :
    fetch_interface_status cmdFailSpawn =
      Except.error (AppError.Other "SSH command failed: boom") ∧
    fetch_interface_status badUtf8Spawn =
      Except.error (AppError.Other "invalid utf-8 sequence") ∧
    errorVariant (fetch_interface_status cmdFailSpawn) =
      errorVariant (fetch_interface_status badUtf8Spawn) :=
  ⟨rfl, rfl, rfl⟩

/-- C2 (amended): the error type returned by the fetch is a tagged union
with the three variants `Json`, `Io` and `Other`: a spawn failure is
returned as `Io` with the io diagnostic, a non-zero exit as `Other`
carrying "SSH command failed: " followed by the lossily decoded stderr,
an invalid stdout encoding as `Other`, and a parse failure as `Json`
carrying the parse diagnostic - command failure and encoding failure
share the `Other` variant instead of having one variant each. -/
theorem C2_error_classification :
    ∀ (spawn : List String → SpawnOutcome) (e : String) (stdout stderr : List Nat),
      (spawn (build_args OpenWrtConfig.default) = SpawnOutcome.err e →
        fetch_interface_status spawn = Except.error (AppError.Io e)) ∧
      (spawn (build_args OpenWrtConfig.default) = SpawnOutcome.out false stdout stderr →
        fetch_interface_status spawn =
          Except.error (AppError.Other ("SSH command failed: " ++ utf8DecodeLossy stderr))) ∧
      (spawn (build_args OpenWrtConfig.default) = SpawnOutcome.out true stdout stderr →
        utf8Decode stdout = none →
        fetch_interface_status spawn = Except.error (AppError.Other "invalid utf-8 sequence")) ∧
      (∀ (t pe : String),
        spawn (build_args OpenWrtConfig.default) = SpawnOutcome.out true stdout stderr →
        utf8Decode stdout = some t →
        interface_status_from_str t = Except.error pe →
        fetch_interface_status spawn = Except.error (AppError.Json pe)) ∧
      (∀ (t : String) (s : InterfaceStatus),
        spawn (build_args OpenWrtConfig.default) = SpawnOutcome.out true stdout stderr →
        utf8Decode stdout = some t →
        interface_status_from_str t = Except.ok s →
        fetch_interface_status spawn = Except.ok s) := by
  intro spawn e stdout stderr
  refine ⟨?_, ?_, ?_, ?_, ?_⟩
  · intro hsp
    unfold fetch_interface_status
    rw [hsp]
    rfl
  · intro hsp
    unfold fetch_interface_status
    rw [hsp]
    rfl
  · intro hsp hdec
    unfold fetch_interface_status
    rw [hsp]
    simp only [run_output, hdec]
    rw [if_pos trivial]
  · intro t pe hsp hdec hpe
    unfold fetch_interface_status
    rw [hsp]
    simp only [run_output, hdec, hpe]
    rw [if_pos trivial]
  · intro t s hsp hdec hok
    unfold fetch_interface_status
    rw [hsp]
    simp only [run_output, hdec, hok]
    rw [if_pos trivial]

/-- A run in which ssh itself cannot be spawned. -/
def spawnErrC2 : List String → SpawnOutcome :=
  fun _ => SpawnOutcome.err "No such file or directory"

/-- C2 witness: the amended classification applied to a concrete spawn
failure, which is returned as the `Io` variant. -/
theorem C2_error_classification_witness :
    fetch_interface_status spawnErrC2 =
      Except.error (AppError.Io "No such file or directory") :=
  ((C2_error_classification spawnErrC2 "No such file or directory" [] []).1) rfl

/-- A run whose remote command exits non-zero with stderr text
"no such interface". -/
def noSuchIfaceSpawn : List String → SpawnOutcome :=
  fun _ => SpawnOutcome.out false [] (asciiBytes "no such interface")

/-- C5 counterexample: with a non-zero exit and stderr "no such
interface", the fetch fails carrying the wrapped message
"SSH command failed: no such interface", which is not the bare stderr
text the claim requires (and the variant is the shared `Other`, not a
dedicated command-failure variant). -/
theorem C5_counterexample :
    fetch_interface_status noSuchIfaceSpawn =
      Except.error (AppError.Other "SSH command failed: no such interface") ∧
    "SSH command failed: no such interface" ≠ "no such interface" :=
  ⟨rfl, by decide⟩

/-- C5 (amended): for every run in which the spawned process exits
non-zero with stderr text "no such interface", the fetch fails with the
command-failure error of the code - the `Other` variant - carrying the stderr
text embedded in the fixed message "SSH command failed: no such
interface" rather than unmodified. -/
theorem C5_command_failed_message :
    ∀ (spawn : List String → SpawnOutcome) (stdout : List Nat),
      spawn (build_args OpenWrtConfig.default) =
        SpawnOutcome.out false stdout (asciiBytes "no such interface") →
      fetch_interface_status spawn =
        Except.error (AppError.Other "SSH command failed: no such interface") := by
  intro spawn stdout hsp
  unfold fetch_interface_status
  rw [hsp]
  rfl

/-- C5 witness: the amended statement applied to the concrete failing
run. -/
theorem C5_command_failed_message_witness :
    fetch_interface_status noSuchIfaceSpawn =
      Except.error (AppError.Other "SSH command failed: no such interface") :=
  C5_command_failed_message noSuchIfaceSpawn [] rfl

/-- The field list of a JSON object (empty for non-objects). -/
def objFields : Json → List (String × Json)
  | Json.obj fs => fs
  | _ => []

/-- Number of keys of the first object inside an optional JSON array
value (used to tell apart two concrete array-of-object values). -/
def firstElemFieldCount : Option Json → Nat
  | some (Json.arr (Json.obj gs :: _)) => gs.length
  | _ => 0

theorem json_ne_of_count {x y : Option Json}
    (h : firstElemFieldCount x ≠ firstElemFieldCount y) : x ≠ y :=
  fun hxy => h (congrArg firstElemFieldCount hxy)

/-- The full wire object with the optional `inactive` field absent and the
IPv4 entry carrying an extra unmodelled nested key `broadcast`. -/
def c7WireFields : List (String × Json) :=
  eraseKeys fullWireFields ["inactive", "ipv4-address"] ++
    [("ipv4-address",
      Json.arr [Json.obj [("address", Json.str "192.168.8.100"), ("mask", Json.num 24),
        ("broadcast", Json.str "192.168.8.255")]])]

/-- C7 counterexample: a well-formed wire object that parses to a status,
yet re-serializing that status does not reproduce the same field values
for every field: the absent optional `inactive` comes back as `null`, and
the `ipv4-address` value loses the unmodelled nested key `broadcast`, so
the serialized value differs from the original one. -/
theorem C7_counterexample :
    deInterfaceStatus (Json.obj c7WireFields) = Except.ok fullStatus ∧
    lookupKey c7WireFields "inactive" = none ∧
    lookupKey (objFields (serInterfaceStatus fullStatus)) "inactive" = some Json.null ∧
    lookupKey c7WireFields "ipv4-address" =
      some (Json.arr [Json.obj [("address", Json.str "192.168.8.100"),
        ("mask", Json.num 24), ("broadcast", Json.str "192.168.8.255")]]) ∧
    lookupKey (objFields (serInterfaceStatus fullStatus)) "ipv4-address" =
      some (Json.arr [Json.obj [("address", Json.str "192.168.8.100"),
        ("mask", Json.num 24)]]) ∧
    lookupKey (objFields (serInterfaceStatus fullStatus)) "ipv4-address" ≠
      lookupKey c7WireFields "ipv4-address" :=
  ⟨rfl, rfl, rfl, rfl, rfl, json_ne_of_count (by decide)⟩

/-- C7 (amended): re-serializing a parsed status produces a JSON object
whose keys are exactly the 22 wire names - hyphenated for the renamed
fields, identical for the rest - and whose values agree with the original
wire object on every field that is present there, verbatim for all
boolean, numeric, string-sequence and passthrough fields (`data`, and
`l3_device` / `proto` / `inactive` when present), and up to
re-serialization of the parsed entries for the two structured collections
(`ipv4-address` and `route`, whose unmodelled nested keys serde drops);
absent optional fields serialize as `null`. -/
theorem C7_roundtrip_canonical :
    ∀ (fs : List (String × Json)) (up pending available autostart dynamic delegation : Bool)
      (uptime : Nat) (metric dns_metric : Int) (l3_device proto : Option String)
      (updated ipv6_address ipv6_prefix ipv6_prefix_assignment dns_server dns_search
        neighbors : List String)
      (ipv4_address : List Ipv4Address) (route : List Route)
      (inactive : Option Json) (data : Json),
      deInterfaceStatus (Json.obj fs) =
        Except.ok (InterfaceStatus.mk up pending available autostart dynamic uptime
          l3_device proto updated metric dns_metric delegation ipv4_address
          ipv6_address ipv6_prefix ipv6_prefix_assignment route dns_server
          dns_search neighbors inactive data) →
      serInterfaceStatus (InterfaceStatus.mk up pending available autostart dynamic uptime
          l3_device proto updated metric dns_metric delegation ipv4_address
          ipv6_address ipv6_prefix ipv6_prefix_assignment route dns_server
          dns_search neighbors inactive data) =
        Json.obj
          [("up", Json.bool up), ("pending", Json.bool pending),
           ("available", Json.bool available), ("autostart", Json.bool autostart),
           ("dynamic", Json.bool dynamic), ("uptime", Json.num (Int.ofNat uptime)),
           ("l3_device", serOptString l3_device), ("proto", serOptString proto),
           ("updated", serStringList updated), ("metric", Json.num metric),
           ("dns_metric", Json.num dns_metric), ("delegation", Json.bool delegation),
           ("ipv4-address", Json.arr (ipv4_address.map serIpv4)),
           ("ipv6-address", serStringList ipv6_address),
           ("ipv6-prefix", serStringList ipv6_prefix),
           ("ipv6-prefix-assignment", serStringList ipv6_prefix_assignment),
           ("route", Json.arr (route.map serRoute)),
           ("dns-server", serStringList dns_server),
           ("dns-search", serStringList dns_search),
           ("neighbors", serStringList neighbors),
           ("inactive", serOptJson inactive), ("data", data)] ∧
      lookupKey fs "up" = some (Json.bool up) ∧
      lookupKey fs "pending" = some (Json.bool pending) ∧
      lookupKey fs "available" = some (Json.bool available) ∧
      lookupKey fs "autostart" = some (Json.bool autostart) ∧
      lookupKey fs "dynamic" = some (Json.bool dynamic) ∧
      lookupKey fs "delegation" = some (Json.bool delegation) ∧
      lookupKey fs "uptime" = some (Json.num (Int.ofNat uptime)) ∧
      lookupKey fs "metric" = some (Json.num metric) ∧
      lookupKey fs "dns_metric" = some (Json.num dns_metric) ∧
      lookupKey fs "updated" = some (serStringList updated) ∧
      lookupKey fs "ipv6-address" = some (serStringList ipv6_address) ∧
      lookupKey fs "ipv6-prefix" = some (serStringList ipv6_prefix) ∧
      lookupKey fs "ipv6-prefix-assignment" = some (serStringList ipv6_prefix_assignment) ∧
      lookupKey fs "dns-server" = some (serStringList dns_server) ∧
      lookupKey fs "dns-search" = some (serStringList dns_search) ∧
      lookupKey fs "neighbors" = some (serStringList neighbors) ∧
      lookupKey fs "data" = some data ∧
      (∀ v, lookupKey fs "l3_device" = some v → v = serOptString l3_device) ∧
      (∀ v, lookupKey fs "proto" = some v → v = serOptString proto) ∧
      (∀ v, lookupKey fs "inactive" = some v → v = serOptJson inactive) ∧
      (∃ es, lookupKey fs "ipv4-address" = some (Json.arr es) ∧
        deListAux deIpv4 es = Except.ok ipv4_address) ∧
      (∃ es2, lookupKey fs "route" = some (Json.arr es2) ∧
        deListAux deRoute es2 = Except.ok route) := by
  intro fs up pending available autostart dynamic delegation uptime metric dns_metric
    l3_device proto updated ipv6_address ipv6_prefix ipv6_prefix_assignment dns_server
    dns_search neighbors ipv4_address route inactive data h
  have r := deInterfaceStatus_ok h
  refine ⟨rfl, ?_, ?_, ?_, ?_, ?_, ?_, ?_, ?_, ?_, ?_, ?_, ?_, ?_, ?_, ?_, ?_, ?_,
    ?_, ?_, ?_, ?_, ?_⟩
  · obtain ⟨v, hv, hde⟩ := reqField_ok_lookup r.up_e
    rw [hv, deBool_ok hde]
  · obtain ⟨v, hv, hde⟩ := reqField_ok_lookup r.pending_e
    rw [hv, deBool_ok hde]
  · obtain ⟨v, hv, hde⟩ := reqField_ok_lookup r.available_e
    rw [hv, deBool_ok hde]
  · obtain ⟨v, hv, hde⟩ := reqField_ok_lookup r.autostart_e
    rw [hv, deBool_ok hde]
  · obtain ⟨v, hv, hde⟩ := reqField_ok_lookup r.dynamic_e
    rw [hv, deBool_ok hde]
  · obtain ⟨v, hv, hde⟩ := reqField_ok_lookup r.delegation_e
    rw [hv, deBool_ok hde]
  · obtain ⟨v, hv, hde⟩ := reqField_ok_lookup r.uptime_e
    rw [hv, deU64_ok hde]
  · obtain ⟨v, hv, hde⟩ := reqField_ok_lookup r.metric_e
    rw [hv, deI32_ok hde]
  · obtain ⟨v, hv, hde⟩ := reqField_ok_lookup r.dns_metric_e
    rw [hv, deI32_ok hde]
  · obtain ⟨v, hv, hde⟩ := reqField_ok_lookup r.updated_e
    obtain ⟨es, hes, haux⟩ := deList_ok_arr hde
    rw [hv, hes, deListAux_string_ok haux]
    rfl
  · obtain ⟨v, hv, hde⟩ := reqField_ok_lookup r.ipv6_address_e
    obtain ⟨es, hes, haux⟩ := deList_ok_arr hde
    rw [hv, hes, deListAux_string_ok haux]
    rfl
  · obtain ⟨v, hv, hde⟩ := reqField_ok_lookup r.ipv6_prefix_e
    obtain ⟨es, hes, haux⟩ := deList_ok_arr hde
    rw [hv, hes, deListAux_string_ok haux]
    rfl
  · obtain ⟨v, hv, hde⟩ := reqField_ok_lookup r.ipv6_prefix_assignment_e
    obtain ⟨es, hes, haux⟩ := deList_ok_arr hde
    rw [hv, hes, deListAux_string_ok haux]
    rfl
  · obtain ⟨v, hv, hde⟩ := reqField_ok_lookup r.dns_server_e
    obtain ⟨es, hes, haux⟩ := deList_ok_arr hde
    rw [hv, hes, deListAux_string_ok haux]
    rfl
  · obtain ⟨v, hv, hde⟩ := reqField_ok_lookup r.dns_search_e
    obtain ⟨es, hes, haux⟩ := deList_ok_arr hde
    rw [hv, hes, deListAux_string_ok haux]
    rfl
  · obtain ⟨v, hv, hde⟩ := reqField_ok_lookup r.neighbors_e
    obtain ⟨es, hes, haux⟩ := deList_ok_arr hde
    rw [hv, hes, deListAux_string_ok haux]
    rfl
  · obtain ⟨v, hv, hde⟩ := reqField_ok_lookup r.data_e
    rw [hv, deJson_ok hde]
  · intro v hv2
    rcases optString_ok r.l3_device_e with hn | hsome
    · rw [hn] at hv2
      exact Option.noConfusion hv2
    · rw [hsome] at hv2
      injection hv2 with hv2
      exact hv2.symm
  · intro v hv2
    rcases optString_ok r.proto_e with hn | hsome
    · rw [hn] at hv2
      exact Option.noConfusion hv2
    · rw [hsome] at hv2
      injection hv2 with hv2
      exact hv2.symm
  · intro v hv2
    rcases optJson_ok r.inactive_e with hn | hsome
    · rw [hn] at hv2
      exact Option.noConfusion hv2
    · rw [hsome] at hv2
      injection hv2 with hv2
      exact hv2.symm
  · obtain ⟨v, hv, hde⟩ := reqField_ok_lookup r.ipv4_address_e
    obtain ⟨es, hes, haux⟩ := deList_ok_arr hde
    refine ⟨es, ?_, haux⟩
    rw [hv, hes]
  · obtain ⟨v, hv, hde⟩ := reqField_ok_lookup r.route_e
    obtain ⟨es, hes, haux⟩ := deList_ok_arr hde
    refine ⟨es, ?_, haux⟩
    rw [hv, hes]

/-- C7 witness: the amended theorem applied to the concrete full wire
object, giving the serialized form of its parse result. -/
theorem C7_roundtrip_canonical_witness :
    serInterfaceStatus fullStatus = Json.obj
      [("up", Json.bool true), ("pending", Json.bool false),
       ("available", Json.bool true), ("autostart", Json.bool true),
       ("dynamic", Json.bool false), ("uptime", Json.num 90061),
       ("l3_device", Json.str "eth1"), ("proto", Json.str "dhcp"),
       ("updated", Json.arr [Json.str "addresses"]),
       ("metric", Json.num 0), ("dns_metric", Json.num 0),
       ("delegation", Json.bool true),
       ("ipv4-address",
         Json.arr [Json.obj [("address", Json.str "192.168.8.100"), ("mask", Json.num 24)]]),
       ("ipv6-address", Json.arr []), ("ipv6-prefix", Json.arr []),
       ("ipv6-prefix-assignment", Json.arr []),
       ("route",
         Json.arr [Json.obj [("target", Json.str "0.0.0.0"), ("mask", Json.num 0),
           ("nexthop", Json.str "192.168.8.1"), ("source", Json.str "192.168.8.100/32")]]),
       ("dns-server", Json.arr [Json.str "192.168.8.1"]), ("dns-search", Json.arr []),
       ("neighbors", Json.arr []), ("inactive", Json.null), ("data", Json.obj [])] :=
  (C7_roundtrip_canonical fullWireFields true false true true false true 90061 0 0
    (some "eth1") (some "dhcp") ["addresses"] [] [] [] ["192.168.8.1"] [] []
    [Ipv4Address.mk "192.168.8.100" 24]
    [Route.mk "0.0.0.0" 0 "192.168.8.1" (some "192.168.8.100/32")]
    none (Json.obj []) rfl).1
